import Mathlib

/-!
Verification development for the attendance reconciliation engine in
`backend/app/reports.py`.

Shallow embedding conventions:
* `datetime` values are modelled as natural numbers counting seconds since
  0001-01-01T00:00:00 (proleptic Gregorian, matching Python's `date.toordinal`
  day numbering shifted to a 0-based index).  Midnight boundaries are then the
  multiples of 86400 and `strftime("%Y-%m-%d")` day keys are the values
  `t / 86400`.
* A raw event row, after the SQL-side IN/OUT normalisation, is a timestamp
  plus a tri-state flag: `some 1` (IN), `some 0` (OUT) or `none` (UNKNOWN),
  exactly the values `_normalize_inout_flag` can produce.
* The event table for one card is modelled as the list of its normalised
  rows in ascending `EventTime` order (the order every SQL fetch in the
  module requests); fetch helpers are the corresponding list filters.
* Stateful pieces (the mapping cache, `time.time()`, the sampling query) are
  passed explicitly and returned explicitly; a `Bool` result records whether
  the sampling query was executed.
* Python float ratio comparisons against the literal `0.60` are modelled by
  the exact rational comparison with 3/5; for the sample sizes the code can
  produce (at most 200 rows) the two comparisons agree.
-/

/-- `_minutes_to_hhmm`'s zero padding of a two-digit field (`f"{n:02d}"`). -/
def pad2 (n : Nat) : String := if n < 10 then "0" ++ toString n else toString n

/-- `_minutes_to_hhmm`: `None` for a missing or negative value, else `HH:MM`. -/
def _minutes_to_hhmm (value : Option Int) : Option String :=
  match value with
  | none => none
  | some v =>
    if v < 0 then none
    else some (pad2 (v.toNat / 60) ++ ":" ++ pad2 (v.toNat % 60))

/-- `format_duration_readable`: human readable duration used by the monthly
and yearly payloads. -/
def format_duration_readable (minutes : Option Int) : Option String :=
  match minutes with
  | none => none
  | some v =>
    let hrs := v.toNat / 60
    let mins := v.toNat % 60
    if hrs ≤ 0 then some (pad2 mins ++ " Mins")
    else some (toString hrs ++ " Hrs " ++ pad2 mins ++ " Mins")

/-- `_duration_minutes`: `None` unless both endpoints are present and ordered;
otherwise the elapsed seconds floor-divided into whole minutes. -/
def _duration_minutes (first_in last_out : Option Nat) : Option Int :=
  match first_in, last_out with
  | some f, some l => if l < f then none else some (((l : Int) - (f : Int)) / 60)
  | _, _ => none

/-- Leap year rule used by Python's `datetime` (proleptic Gregorian). -/
def isLeapYear (y : Nat) : Bool := y % 4 == 0 && (y % 100 != 0 || y % 400 == 0)

/-- Number of days in a month, as validated by the `datetime` constructor. -/
def daysInMonth (y m : Nat) : Nat :=
  if m = 2 then (if isLeapYear y then 29 else 28)
  else if m = 4 ∨ m = 6 ∨ m = 9 ∨ m = 11 then 30
  else 31

/-- Days before January 1st of year `y` counted from 0001-01-01 (day 0). -/
def daysBeforeYear (y : Nat) : Nat :=
  365 * (y - 1) + (y - 1) / 4 - (y - 1) / 100 + (y - 1) / 400

/-- Days of year `y` that precede the first day of month `m`. -/
def daysBeforeMonth (y m : Nat) : Nat :=
  ((List.range (m - 1)).map (fun i => daysInMonth y (i + 1))).sum

/-- 0-based day index of the calendar date `y-m-d`. -/
def toDayIndex (y m d : Nat) : Nat :=
  daysBeforeYear y + daysBeforeMonth y m + (d - 1)

/-- Seconds-since-epoch timestamp of `y-m-d hh:mm`. -/
def civilSeconds (y m d hh mm : Nat) : Nat :=
  toDayIndex y m d * 86400 + hh * 3600 + mm * 60

/-- The five event-encoding strategies `_detect_event_variant` can report. -/
inductive DetectorVariant where
  | EVENTTYPE_to_EventID
  | EVENTID_to_EventID
  | TEVENT_InOut_only
  | TEVENT_Event_text_only
  | UNSUPPORTED
deriving DecidableEq

/-- A normalised event row: `EventTime` plus the tri-state `InOutFlag`
(`some 1` = IN, `some 0` = OUT, `none` = UNKNOWN) produced by
`_normalize_inout_flag` on the SQL expression output. -/
structure Event where
  event_time : Nat
  inout_flag : Option Nat
deriving DecidableEq

/-- Event streams returned by the SQL fetches are ascending in `EventTime`. -/
def SortedByTime (l : List Event) : Prop :=
  List.Pairwise (fun e1 e2 => e1.event_time ≤ e2.event_time) l

instance : DecidablePred SortedByTime := fun l =>
  inferInstanceAs (Decidable (List.Pairwise _ l))

/-- `_fetch_events_for_card`: all events of the card in `[start, end)`, in
ascending time order; empty when the detector variant is UNSUPPORTED (the
missing-column degradations behave identically). -/
def _fetch_events_for_card (variant : DetectorVariant) (tbl : List Event)
    (start end_ : Nat) : List Event :=
  if variant = .UNSUPPORTED then []
  else tbl.filter (fun e => decide (start ≤ e.event_time) && decide (e.event_time < end_))

/-- `_fetch_last_event_before`: the single most recent event strictly before
`boundary` (`TOP 1 ... ORDER BY EventTime DESC`), regardless of whether its
normalised flag is resolvable. -/
def _fetch_last_event_before (variant : DetectorVariant) (tbl : List Event)
    (boundary : Nat) : Option Event :=
  if variant = .UNSUPPORTED then none
  else (tbl.filter (fun e => decide (e.event_time < boundary))).getLast?

/-- `_event_state`: polarity-corrected state of an event, `none` when the
flag is not resolvable. -/
def _event_state (event : Event) (swap_applied : Bool) : Option Nat :=
  match event.inout_flag with
  | none => none
  | some flag =>
    if flag ≠ 0 ∧ flag ≠ 1 then none
    else if !swap_applied then some flag
    else if flag = 1 then some 0 else some 1

/-- `_is_in_event`: the event is a polarity-corrected IN. -/
def _is_in_event (event : Event) (swap_applied : Bool) : Bool :=
  match event.inout_flag with
  | some 1 => !swap_applied
  | some 0 => swap_applied
  | _ => false

/-- `_is_out_event`: the event is a polarity-corrected OUT. -/
def _is_out_event (event : Event) (swap_applied : Bool) : Bool :=
  match event.inout_flag with
  | some 1 => swap_applied
  | some 0 => !swap_applied
  | _ => false

/-- One bucket of the `day_totals` dictionary in
`_compute_period_segment_totals`: minutes in IN-state and OUT-state
attributed to one calendar day. -/
structure DayBucket where
  day : Nat
  in_minutes : Nat
  out_minutes : Nat
deriving DecidableEq

/-- The `day_totals: dict[str, dict[str, int]]` accumulator, as an
association list keyed by day index (keys stay unique because entries are
only created by `setdefault`). -/
def DayTotals : Type := List DayBucket

instance : DecidableEq DayTotals := inferInstanceAs (DecidableEq (List DayBucket))

/-- Dictionary lookup of a day's IN minutes (0 when the key is absent). -/
def getIn : DayTotals → Nat → Nat
  | [], _ => 0
  | b :: rest, d => if b.day = d then b.in_minutes else getIn rest d

/-- Dictionary lookup of a day's OUT minutes (0 when the key is absent). -/
def getOut : DayTotals → Nat → Nat
  | [], _ => 0
  | b :: rest, d => if b.day = d then b.out_minutes else getOut rest d

/-- `sum(bucket["in_minutes"] for bucket in day_totals.values())`. -/
def totalIn : DayTotals → Nat
  | [] => 0
  | b :: rest => b.in_minutes + totalIn rest

/-- `sum(bucket["out_minutes"] for bucket in day_totals.values())`. -/
def totalOut : DayTotals → Nat
  | [] => 0
  | b :: rest => b.out_minutes + totalOut rest

/-- `day_totals.setdefault(day_key, {...})` followed by the state-dependent
`+= minutes` bump. -/
def addDayMinutes : DayTotals → Nat → Nat → Nat → DayTotals
  | [], day, state, minutes =>
    if state = 1 then [⟨day, minutes, 0⟩]
    else if state = 0 then [⟨day, 0, minutes⟩]
    else [⟨day, 0, 0⟩]
  | b :: rest, day, state, minutes =>
    if b.day = day then
      (if state = 1 then { b with in_minutes := b.in_minutes + minutes }
       else if state = 0 then { b with out_minutes := b.out_minutes + minutes }
       else b) :: rest
    else b :: addDayMinutes rest day state minutes

/-- The first midnight strictly after `t`
(`datetime(cursor.year, cursor.month, cursor.day) + timedelta(days=1)`). -/
def nextMidnight (t : Nat) : Nat := (t / 86400 + 1) * 86400

/-- The `while cursor < clipped_end` loop of `_accumulate_segment_minutes`:
walk the clipped segment chunk by chunk, splitting at each midnight, adding
each chunk's whole minutes to the cursor day's bucket for `state`. -/
def accumChunks (dt : DayTotals) (state cursor stop : Nat) : DayTotals :=
  if h : cursor < stop then
    let chunk_end := min stop (nextMidnight cursor)
    let minutes := (chunk_end - cursor) / 60
    let dt' := if minutes > 0 then addDayMinutes dt (cursor / 86400) state minutes else dt
    accumChunks dt' state chunk_end stop
  else dt
termination_by stop - cursor
decreasing_by
  have h1 : cursor < nextMidnight cursor := by
    simp only [nextMidnight]; omega
  have h2 : cursor < min stop (nextMidnight cursor) := lt_min h h1
  omega

/-- `_accumulate_segment_minutes`: clip the closed segment to the window and
attribute its minutes day by day. -/
def _accumulate_segment_minutes (day_totals : DayTotals) (state : Nat)
    (segment_start segment_end window_start window_end : Nat) : DayTotals :=
  let clipped_start := max segment_start window_start
  let clipped_end := min segment_end window_end
  if clipped_end ≤ clipped_start then day_totals
  else accumChunks day_totals state clipped_start clipped_end

/-- One step of the timeline walk in `_compute_period_segment_totals`: the
accumulator is `(day_totals, currentState, segmentStart)`. -/
def walkStep (swap_applied : Bool) (window_start window_end : Nat)
    (acc : DayTotals × Option Nat × Option Nat) (event : Event) :
    DayTotals × Option Nat × Option Nat :=
  match _event_state event swap_applied with
  | none => acc
  | some next_state =>
    match acc.2.1 with
    | none => (acc.1, some next_state, some event.event_time)
    | some state =>
      if next_state = state then acc
      else
        match acc.2.2 with
        | some segment_start =>
          (_accumulate_segment_minutes acc.1 state segment_start event.event_time
            window_start window_end, some next_state, some event.event_time)
        | none => (acc.1, some next_state, some event.event_time)

/-- The timeline walk over a list of events from a given accumulator. -/
def walkFold (swap_applied : Bool) (window_start window_end : Nat)
    (init : DayTotals × Option Nat × Option Nat) (events : List Event) :
    DayTotals × Option Nat × Option Nat :=
  events.foldl (walkStep swap_applied window_start window_end) init

/-- Insert an event into a time-sorted list keeping ascending order. -/
def insertByTime (e : Event) : List Event → List Event
  | [] => [e]
  | f :: rest =>
    if e.event_time ≤ f.event_time then e :: f :: rest else f :: insertByTime e rest

/-- `timeline.sort(key=lambda item: item["event_time"])`. -/
def sortByTime (l : List Event) : List Event := l.foldr insertByTime []

/-- The `PeriodTotals` payload of `_compute_period_segment_totals`. -/
structure PeriodTotals where
  totalInMinutes : Nat
  totalOutMinutes : Nat
  totalInHHMM : Option String
  totalOutHHMM : Option String
  per_day : DayTotals
deriving DecidableEq

/-- The zeroed totals returned on an empty window, an unsupported variant or
an empty timeline. -/
def zeroPeriodTotals : PeriodTotals :=
  { totalInMinutes := 0
    totalOutMinutes := 0
    totalInHHMM := _minutes_to_hhmm (some 0)
    totalOutHHMM := _minutes_to_hhmm (some 0)
    per_day := [] }

/-- Package a finished `day_totals` dictionary into the totals payload. -/
def mkPeriodTotals (dt : DayTotals) : PeriodTotals :=
  { totalInMinutes := totalIn dt
    totalOutMinutes := totalOut dt
    totalInHHMM := _minutes_to_hhmm (some (totalIn dt))
    totalOutHHMM := _minutes_to_hhmm (some (totalOut dt))
    per_day := dt }

/-- `_compute_period_segment_totals`: fetch the window's events plus the
most recent event before the window as anchor, sort, walk the timeline and
attribute each closed segment's minutes to days. -/
def _compute_period_segment_totals (variant : DetectorVariant) (tbl : List Event)
    (start end_ : Nat) (swap_applied : Bool) : PeriodTotals :=
  if end_ ≤ start then zeroPeriodTotals
  else if variant = .UNSUPPORTED then zeroPeriodTotals
  else
    let events := _fetch_events_for_card variant tbl start end_
    let timeline0 :=
      match _fetch_last_event_before variant tbl start with
      | some anchor => anchor :: events
      | none => events
    if timeline0.isEmpty then zeroPeriodTotals
    else
      let timeline := sortByTime timeline0
      let final := walkFold swap_applied start end_ ([], none, none) timeline
      mkPeriodTotals final.1

/-- The record produced by `_compute_day_attendance`.  `date` is the day
index of `day_start`; datetimes stay numeric (string formatting is
presentation only). -/
structure DayAttendance where
  date : Nat
  first_in_dt : Option Nat
  last_out_dt : Option Nat
  duration_minutes : Option Int
  duration_hhmm : Option String
  missing_punch : Bool
  has_relevant_events : Bool
deriving DecidableEq

/-- The anomaly-correction scan of `_compute_day_attendance`: iterate the
day's events keeping the first (`next_out`) and last (`last_out_after_in`)
OUT in `[first_in, overnight_end)`, returning `last_out_after_in or
next_out`. -/
def recomputeLastOut (day_events : List Event) (first_in overnight_end : Nat)
    (swap_applied : Bool) : Option Nat :=
  let outs := (day_events.filter (fun e =>
    decide (first_in ≤ e.event_time) && decide (e.event_time < overnight_end) &&
      _is_out_event e swap_applied)).map (fun e => e.event_time)
  match outs.getLast? with
  | some v => some v
  | none => outs.head?

/-- The `in_primary` list of `_compute_day_attendance`: times of the
polarity-corrected IN events strictly inside the calendar day, in stream
order. -/
def dayInPrimary (day_start day_end : Nat) (day_events : List Event)
    (swap_applied : Bool) : List Nat :=
  (day_events.filter (fun e =>
    decide (day_start ≤ e.event_time) && decide (e.event_time < day_end) &&
      _is_in_event e swap_applied)).map (fun e => e.event_time)

/-- The `out_primary` list of `_compute_day_attendance`: times of the in-day
events reaching the `elif` OUT branch. -/
def dayOutPrimary (day_start day_end : Nat) (day_events : List Event)
    (swap_applied : Bool) : List Nat :=
  (day_events.filter (fun e =>
    decide (day_start ≤ e.event_time) && decide (e.event_time < day_end) &&
      !_is_in_event e swap_applied && _is_out_event e swap_applied)).map
      (fun e => e.event_time)

/-- The `outs_after_in` list of `_compute_day_attendance`: OUT events in
`[first_in, overnight_end)`. -/
def dayOutsAfterIn (first_in overnight_end : Nat) (day_events : List Event)
    (swap_applied : Bool) : List Nat :=
  (day_events.filter (fun e =>
    decide (first_in ≤ e.event_time) && decide (e.event_time < overnight_end) &&
      _is_out_event e swap_applied)).map (fun e => e.event_time)

/-- The `last_out` value of `_compute_day_attendance` before the negative
duration sanity check: latest OUT in the extended window when an IN exists
(with the `last_out < first_in` recompute path), else the latest in-day OUT
of an OUT-only day. -/
def dayLastOut0 (day_start day_end overnight_end : Nat) (day_events : List Event)
    (swap_applied : Bool) : Option Nat :=
  match (dayInPrimary day_start day_end day_events swap_applied).min? with
  | some fi =>
    (match (dayOutsAfterIn fi overnight_end day_events swap_applied).max? with
     | some lo =>
       if lo < fi then recomputeLastOut day_events fi overnight_end swap_applied
       else some lo
     | none => none)
  | none => (dayOutPrimary day_start day_end day_events swap_applied).max?

/-- `_compute_day_attendance`: classify the day's events, derive
first-in/last-out with the overnight extension, and never keep a negative
duration. -/
def _compute_day_attendance (day_start : Nat) (day_events : List Event)
    (swap_applied : Bool) (cutoff_hours : Nat) : DayAttendance :=
  let day_end := day_start + 86400
  let overnight_end := day_end + cutoff_hours * 3600
  let first_in := (dayInPrimary day_start day_end day_events swap_applied).min?
  let last_out0 := dayLastOut0 day_start day_end overnight_end day_events swap_applied
  let duration_minutes := _duration_minutes first_in last_out0
  let last_out :=
    if first_in.isSome && last_out0.isSome && duration_minutes.isNone then none
    else last_out0
  let missing_punch := first_in.isNone ^^ last_out.isNone
  let has_relevant_events :=
    !(dayInPrimary day_start day_end day_events swap_applied).isEmpty ||
      !(dayOutPrimary day_start day_end day_events swap_applied).isEmpty
  { date := day_start / 86400
    first_in_dt := first_in
    last_out_dt := last_out
    duration_minutes := duration_minutes
    duration_hhmm := _minutes_to_hhmm duration_minutes
    missing_punch := missing_punch
    has_relevant_events := has_relevant_events }

/-- The serialized day record (`_serialize_day_record`); datetime-to-string
formatting is identity here. -/
structure DayRecordOut where
  date : Nat
  first_in : Option Nat
  last_out : Option Nat
  duration_minutes : Option Int
  duration_hhmm : Option String
  missing_punch : Bool
deriving DecidableEq

/-- `_serialize_day_record`. -/
def _serialize_day_record (record : DayAttendance) : DayRecordOut :=
  { date := record.date
    first_in := record.first_in_dt
    last_out := record.last_out_dt
    duration_minutes := record.duration_minutes
    duration_hhmm := record.duration_hhmm
    missing_punch := record.missing_punch }

/-- The `while day_cursor < end` loop of `_build_daily_records_for_period`.
The two monotone indices `start_idx`/`end_idx` over the time-ascending
stream are realised by dropping the events before `day_cursor` and taking
those before `overnight_end`. -/
def buildDaysLoop (events : List Event) (day_cursor end_ : Nat)
    (swap_applied : Bool) (cutoff_hours : Nat) : List DayRecordOut :=
  if h : day_cursor < end_ then
    let day_end := day_cursor + 86400
    let overnight_end := day_end + cutoff_hours * 3600
    let remaining := events.dropWhile (fun e => decide (e.event_time < day_cursor))
    let day_events := remaining.takeWhile (fun e => decide (e.event_time < overnight_end))
    let day_record := _compute_day_attendance day_cursor day_events swap_applied cutoff_hours
    (if day_record.has_relevant_events then [_serialize_day_record day_record] else [])
      ++ buildDaysLoop remaining day_end end_ swap_applied cutoff_hours
  else []
termination_by end_ - day_cursor
decreasing_by omega

/-- `_build_daily_records_for_period`: one fetch over the extended window,
then one day record per day of `[start, end)`, keeping only days with
relevant events. -/
def _build_daily_records_for_period (variant : DetectorVariant) (tbl : List Event)
    (start end_ : Nat) (swap_applied : Bool) (cutoff_hours : Nat) : List DayRecordOut :=
  let events := _fetch_events_for_card variant tbl start (end_ + 86400 + cutoff_hours * 3600)
  buildDaysLoop events start end_ swap_applied cutoff_hours

/-- `_build_single_day_record`: fetch the day plus its overnight extension
and compute the one day record. -/
def _build_single_day_record (variant : DetectorVariant) (tbl : List Event)
    (day_start : Nat) (swap_applied : Bool) (cutoff_hours : Nat) : DayRecordOut :=
  let day_end := day_start + 86400
  let overnight_end := day_end + cutoff_hours * 3600
  let events := _fetch_events_for_card variant tbl day_start overnight_end
  _serialize_day_record (_compute_day_attendance day_start events swap_applied cutoff_hours)

/-- One row of `_fetch_recent_mapping_sample`'s result: an event time (the
`isinstance(event_time, datetime)` recheck in `_should_auto_swap` is the
`Option`) and a normalised tri-state flag. -/
structure SampleRow where
  event_time : Option Nat
  inout_flag : Option Nat
deriving DecidableEq

/-- `event_time.hour`. -/
def sampleHour (t : Nat) : Nat := t % 86400 / 3600

/-- The four counters of `_should_auto_swap`'s tally loop. -/
structure SwapTally where
  in_total : Nat
  in_early : Nat
  out_total : Nat
  out_afternoon_evening : Nat
deriving DecidableEq

/-- One iteration of `_should_auto_swap`'s `for row in valid` loop. -/
def _swap_tally_step (acc : SwapTally) (row : SampleRow) : SwapTally :=
  match row.event_time with
  | none => acc
  | some t =>
    let hour := sampleHour t
    if row.inout_flag = some 1 then
      { acc with
        in_total := acc.in_total + 1
        in_early := acc.in_early + (if hour ≤ 6 then 1 else 0) }
    else if row.inout_flag = some 0 then
      { acc with
        out_total := acc.out_total + 1
        out_afternoon_evening :=
          acc.out_afternoon_evening + (if 12 ≤ hour ∧ hour ≤ 23 then 1 else 0) }
    else acc

/-- `_should_auto_swap`: disabled below 50 resolvable rows, else true exactly
when both ratios exceed 0.60 (the float comparison is the exact rational
comparison with 3/5 here; they agree for every sample of at most 200 rows). -/
def _should_auto_swap (sample : List SampleRow) : Bool :=
  let valid := sample.filter (fun row =>
    row.inout_flag == some 0 || row.inout_flag == some 1)
  if valid.length < 50 then false
  else
    let t := valid.foldl _swap_tally_step ⟨0, 0, 0, 0⟩
    if t.in_total = 0 || t.out_total = 0 then false
    else
      decide (3 * t.in_total < 5 * t.in_early) &&
        decide (3 * t.out_total < 5 * t.out_afternoon_evening)

/-- The `MappingState` payload of `_get_mapping_state`. -/
structure MappingState where
  mappingVariant : String
  swapApplied : Bool
  detectorVariant : DetectorVariant
  autoDetected : Bool
  manualOverride : Bool
deriving DecidableEq

/-- The process-wide `_MAPPING_CACHE` entry. -/
structure MappingCache where
  ts : Nat
  mappingVariant : String
  swapApplied : Bool
  detectorVariant : DetectorVariant
  autoDetected : Bool
deriving DecidableEq

/-- `_get_mapping_state`, with the globals passed explicitly: the cache and
the clock come in as arguments, and the result carries the state, the cache
value after the call, and whether the sampling query was executed. -/
def _get_mapping_state (variant : DetectorVariant) (inout_swap : Bool)
    (cache : Option MappingCache) (now : Nat) (sample : List SampleRow) :
    MappingState × Option MappingCache × Bool :=
  if variant = .UNSUPPORTED then
    ({ mappingVariant := "unsupported"
       swapApplied := false
       detectorVariant := variant
       autoDetected := false
       manualOverride := false }, cache, false)
  else if inout_swap then
    ({ mappingVariant := "swapped"
       swapApplied := true
       detectorVariant := variant
       autoDetected := false
       manualOverride := true }, cache, false)
  else
    match cache with
    | some cached =>
      if now - cached.ts < 300 ∧ cached.detectorVariant = variant then
        ({ mappingVariant := cached.mappingVariant
           swapApplied := cached.swapApplied
           detectorVariant := variant
           autoDetected := cached.autoDetected
           manualOverride := false }, cache, false)
      else
        let auto_swapped := _should_auto_swap sample
        ({ mappingVariant := if auto_swapped then "swapped" else "normal"
           swapApplied := auto_swapped
           detectorVariant := variant
           autoDetected := auto_swapped
           manualOverride := false },
         some { ts := now
                mappingVariant := if auto_swapped then "swapped" else "normal"
                swapApplied := auto_swapped
                detectorVariant := variant
                autoDetected := auto_swapped }, true)
    | none =>
      let auto_swapped := _should_auto_swap sample
      ({ mappingVariant := if auto_swapped then "swapped" else "normal"
         swapApplied := auto_swapped
         detectorVariant := variant
         autoDetected := auto_swapped
         manualOverride := false },
       some { ts := now
              mappingVariant := if auto_swapped then "swapped" else "normal"
              swapApplied := auto_swapped
              detectorVariant := variant
              autoDetected := auto_swapped }, true)

/-- The ASCII whitespace characters `str.strip()` removes (space, tab,
newline, carriage return, vertical tab, form feed); non-ASCII whitespace is
not modelled. -/
def isPySpace (c : Char) : Bool :=
  c.toNat = 32 || c.toNat = 9 || c.toNat = 10 || c.toNat = 13 ||
    c.toNat = 11 || c.toNat = 12

/-- `str.strip()` on the character list. -/
def trimChars (l : List Char) : List Char :=
  ((l.dropWhile isPySpace).reverse.dropWhile isPySpace).reverse

/-- `str.strip()`. -/
def pyStrip (s : String) : String := String.mk (trimChars s.data)

/-- `str(value).strip()` on a nullable SQL text value (`_clean_text`). -/
def _clean_text (value : Option String) : String :=
  match value with
  | none => ""
  | some s => pyStrip s

/-- `_employee_name_or_card`. -/
def _employee_name_or_card (row_name : Option String) (fallback_card_no : String) :
    String :=
  let name := _clean_text row_name
  if name = "" then fallback_card_no else name

/-- Validity of the digit body of a Python `int()` literal after the first
character: underscores may appear singly and only between digits. -/
def pyDigitsTail : List Char → Bool
  | [] => true
  | '_' :: c :: rest => c.isDigit && pyDigitsTail rest
  | c :: rest => c.isDigit && pyDigitsTail rest

/-- A nonempty digit run with optional single underscores between digits. -/
def pyDigits : List Char → Bool
  | [] => false
  | c :: rest => c.isDigit && pyDigitsTail rest

/-- Numeric value of a digit run, ignoring underscores. -/
def pyDigitsVal (l : List Char) : Nat :=
  (l.filter (fun c => c != '_')).foldl (fun acc c => acc * 10 + (c.toNat - 48)) 0

/-- Python `int(str)`: strip surrounding whitespace, allow one sign, then
digits with optional single underscores between them (ASCII digits only). -/
def pythonInt (s : String) : Option Int :=
  match trimChars s.data with
  | '+' :: rest => if pyDigits rest then some (pyDigitsVal rest) else none
  | '-' :: rest => if pyDigits rest then some (-(pyDigitsVal rest : Int)) else none
  | l => if pyDigits l then some (pyDigitsVal l) else none

/-- An HTTPException raised by the validators. -/
structure HttpError where
  status : Nat
  detail : String
deriving DecidableEq

/-- An ASCII digit (the `\d` of `strptime`'s field patterns; non-ASCII
digits are not modelled). -/
def isAsciiDigit (c : Char) : Bool := decide ('0' ≤ c) && decide (c ≤ '9')

/-- Numeric value of an ASCII digit run. -/
def digitsVal (l : List Char) : Nat :=
  l.foldl (fun acc c => acc * 10 + (c.toNat - 48)) 0

/-- Split a character list at every `-`, like `str.split("-")`. -/
def splitOnDash : List Char → List (List Char)
  | [] => [[]]
  | c :: rest =>
    if c = '-' then [] :: splitOnDash rest
    else
      match splitOnDash rest with
      | [] => [[c]]
      | p :: ps => (c :: p) :: ps

/-- Parse a fixed `strptime` numeric field: all digits, length in range. -/
def strptimeField (cs : List Char) (lo hi : Nat) : Option Nat :=
  if lo ≤ cs.length ∧ cs.length ≤ hi ∧ cs.all isAsciiDigit then some (digitsVal cs)
  else none

/-- `_parse_date`: `strptime(value, "%Y-%m-%d")` (a 4-digit year, a 1-2
digit month 1-12, a 1-2 digit day, the whole string consumed) followed by the
`datetime` constructor's calendar validation; returns the date as a
`(year, month, day)` triple. -/
def _parse_date (date_value : String) : Except HttpError (Nat × Nat × Nat) :=
  let err : HttpError := ⟨400, "date must be in YYYY-MM-DD format"⟩
  match splitOnDash date_value.data with
  | [ys, ms, ds] =>
    match strptimeField ys 4 4, strptimeField ms 1 2, strptimeField ds 1 2 with
    | some y, some m, some d =>
      if 1 ≤ y ∧ 1 ≤ m ∧ m ≤ 12 ∧ 1 ≤ d ∧ d ≤ daysInMonth y m then
        Except.ok (y, m, d)
      else Except.error err
    | _, _, _ => Except.error err
  | _ => Except.error err

/-- `_month_bounds`: `strptime(value, "%Y-%m")`, then the month window
`[start, end)` in seconds plus the normalised `(year, month)` pair. -/
def _month_bounds (month_value : String) : Except HttpError (Nat × Nat × Nat × Nat) :=
  let err : HttpError := ⟨400, "month must be in YYYY-MM format"⟩
  match splitOnDash month_value.data with
  | [ys, ms] =>
    match strptimeField ys 4 4, strptimeField ms 1 2 with
    | some y, some m =>
      if 1 ≤ y ∧ 1 ≤ m ∧ m ≤ 12 then
        let start := toDayIndex y m 1 * 86400
        let end_ := if m = 12 then toDayIndex (y + 1) 1 1 * 86400
          else toDayIndex y (m + 1) 1 * 86400
        Except.ok (start, end_, y, m)
      else Except.error err
    | _, _ => Except.error err
  | _ => Except.error err

/-- `_year_bounds`: `int(value)`, the 1900-2100 range check, then the year
window `[start, end)` in seconds plus the normalised year. -/
def _year_bounds (year_value : String) : Except HttpError (Nat × Nat × Nat) :=
  match pythonInt year_value with
  | none => Except.error ⟨400, "year must be numeric YYYY"⟩
  | some y =>
    if y < 1900 ∨ 2100 < y then
      Except.error ⟨400, "year is out of accepted range"⟩
    else
      Except.ok (toDayIndex y.toNat 1 1 * 86400, toDayIndex (y.toNat + 1) 1 1 * 86400,
        y.toNat)

/-- The raw `EmpID` value of an employee row. -/
inductive EmpIdRaw where
  | intVal (i : Int)
  | strVal (s : String)
deriving DecidableEq

/-- The normalised employee id (`_normalize_emp_id` returns `int | str`). -/
inductive EmpId where
  | intId (i : Int)
  | strId (s : String)
deriving DecidableEq

/-- `_normalize_emp_id`. -/
def _normalize_emp_id (value : Option EmpIdRaw) (fallback_card_no : String) : EmpId :=
  match value with
  | none => .strId fallback_card_no
  | some (.intVal i) => .intId i
  | some (.strVal s) =>
    let raw := pyStrip s
    if raw = "" then .strId fallback_card_no
    else
      match pythonInt raw with
      | some i => .intId i
      | none => .strId raw

/-- One row of the employee query result (`EmpID`, `CardNo` converted to
VARCHAR, the resolved name expression, the department expression). -/
structure EmployeeRow where
  EmpID : Option EmpIdRaw
  CardNo : Option String
  EmployeeName : Option String
  Department : Option String
deriving DecidableEq

/-- One entry of `fetch_employees`' result. -/
structure EmployeeEntry where
  emp_id : EmpId
  card_no : String
  employee_name : String
deriving DecidableEq

/-- The `for row in rows` loop of `fetch_employees`: drop rows whose cleaned
card number is empty, fall back to the card number for blank names. -/
def employeeRowsLoop : List EmployeeRow → List EmployeeEntry
  | [] => []
  | row :: rest =>
    let card_no := _clean_text row.CardNo
    if card_no = "" then employeeRowsLoop rest
    else
      { emp_id := _normalize_emp_id row.EmpID card_no
        card_no := card_no
        employee_name := _employee_name_or_card row.EmployeeName card_no }
        :: employeeRowsLoop rest

/-- `fetch_employees`: the SQL query returns at most 200 rows
(`SELECT TOP 200`, here a `take 200` over the active filtered ordered rows),
and the loop post-processes them. -/
def fetch_employees (queryRows : List EmployeeRow) : List EmployeeEntry :=
  employeeRowsLoop (queryRows.take 200)

/-- `_fetch_employee_identity`: the identity row lookup result for a card,
with the same fallbacks as the code. -/
structure EmployeeIdentity where
  emp_id : EmpId
  card_no : String
  employee_name : String
  department : Option String
deriving DecidableEq

/-- `_fetch_employee_identity` over the (at most one) row its `TOP 1` query
returns. -/
def _fetch_employee_identity (card_no : String) (row : Option EmployeeRow) :
    EmployeeIdentity :=
  let rowCard := match row with | none => none | some r => r.CardNo
  let rowName := match row with | none => none | some r => r.EmployeeName
  let rowEmpId := match row with | none => none | some r => r.EmpID
  let rowDept := match row with | none => none | some r => r.Department
  let normalized_card_no := if _clean_text rowCard = "" then card_no else _clean_text rowCard
  let employee_name := _employee_name_or_card rowName normalized_card_no
  let emp_id := _normalize_emp_id rowEmpId normalized_card_no
  let department := if _clean_text rowDept = "" then none else some (_clean_text rowDept)
  { emp_id := emp_id
    card_no := normalized_card_no
    employee_name := employee_name
    department := department }

/-- The per-request environment of a report computation: the resolved
detector variant, the card's normalised event table, the configuration
(`settings.inout_swap`, `settings.shift_out_cutoff_hours`), the mapping
cache global, the clock, the system-wide sampling query result and the
identity row of the card. -/
structure ReportEnv where
  variant : DetectorVariant
  table : List Event
  inout_swap : Bool
  shift_out_cutoff_hours : Nat
  mapping_cache : Option MappingCache
  now : Nat
  sample : List SampleRow
  identity_row : Option EmployeeRow
deriving DecidableEq

/-- The payload of `fetch_daily_report`. -/
structure DailyReport where
  employee_name : String
  card_no : String
  department : Option String
  date : Nat
  first_in : Option Nat
  last_out : Option Nat
  duration_minutes : Option Int
  duration_hhmm : Option String
  missing_punch : Bool
  totalInMinutes : Nat
  totalOutMinutes : Nat
  totalInHHMM : Option String
  totalOutHHMM : Option String
  total_work_minutes : Option Int
  mappingVariant : String
  swapApplied : Bool
deriving DecidableEq

/-- `fetch_daily_report`: parse the date first (any malformed date aborts
with the 400 error before the detector, mapping, identity or event queries
run), then assemble the single-day record and the one-day period totals. -/
def fetch_daily_report (card_no date_value : String) (env : ReportEnv) :
    Except HttpError DailyReport :=
  match _parse_date date_value with
  | .error e => .error e
  | .ok (y, m, d) =>
    let mapping := (_get_mapping_state env.variant env.inout_swap env.mapping_cache
      env.now env.sample).1
    let identity := _fetch_employee_identity card_no env.identity_row
    let day_start := toDayIndex y m d * 86400
    let day_record := _build_single_day_record env.variant env.table day_start
      mapping.swapApplied env.shift_out_cutoff_hours
    let period_totals := _compute_period_segment_totals env.variant env.table
      day_start (day_start + 86400) mapping.swapApplied
    .ok
      { employee_name := identity.employee_name
        card_no := identity.card_no
        department := identity.department
        date := day_record.date
        first_in := day_record.first_in
        last_out := day_record.last_out
        duration_minutes := day_record.duration_minutes
        duration_hhmm := day_record.duration_hhmm
        missing_punch := day_record.missing_punch
        totalInMinutes := period_totals.totalInMinutes
        totalOutMinutes := period_totals.totalOutMinutes
        totalInHHMM := period_totals.totalInHHMM
        totalOutHHMM := period_totals.totalOutHHMM
        total_work_minutes := day_record.duration_minutes
        mappingVariant := mapping.mappingVariant
        swapApplied := mapping.swapApplied }

/-- The payload of `fetch_monthly_report`. -/
structure MonthlyReport where
  employee_name : String
  card_no : String
  department : Option String
  month_year : Nat
  month_month : Nat
  records : List DayRecordOut
  total_days : Nat
  missing_punch_days : Nat
  total_minutes : Int
  total_duration_hhmm : Option String
  total_duration_readable : Option String
  totalInMinutes : Nat
  totalOutMinutes : Nat
  totalInHHMM : Option String
  totalOutHHMM : Option String
  total_work_minutes : Int
  mappingVariant : String
  swapApplied : Bool
deriving DecidableEq

/-- `fetch_monthly_report`: parse and bound the month first (any malformed
month aborts with the 400 error before any query runs), then build the per
day records and the month totals. -/
def fetch_monthly_report (card_no month_value : String) (env : ReportEnv) :
    Except HttpError MonthlyReport :=
  match _month_bounds month_value with
  | .error e => .error e
  | .ok (start, end_, y, m) =>
    let mapping := (_get_mapping_state env.variant env.inout_swap env.mapping_cache
      env.now env.sample).1
    let identity := _fetch_employee_identity card_no env.identity_row
    let records := _build_daily_records_for_period env.variant env.table start end_
      mapping.swapApplied env.shift_out_cutoff_hours
    let period_totals := _compute_period_segment_totals env.variant env.table
      start end_ mapping.swapApplied
    let total_minutes : Int := (records.map (fun r => r.duration_minutes.getD 0)).sum
    let total_days := (records.filter (fun r => r.first_in.isSome)).length
    let missing_punch_days := (records.filter (fun r => r.missing_punch)).length
    .ok
      { employee_name := identity.employee_name
        card_no := identity.card_no
        department := identity.department
        month_year := y
        month_month := m
        records := records
        total_days := total_days
        missing_punch_days := missing_punch_days
        total_minutes := total_minutes
        total_duration_hhmm := _minutes_to_hhmm (some total_minutes)
        total_duration_readable := format_duration_readable (some total_minutes)
        totalInMinutes := period_totals.totalInMinutes
        totalOutMinutes := period_totals.totalOutMinutes
        totalInHHMM := period_totals.totalInHHMM
        totalOutHHMM := period_totals.totalOutHHMM
        total_work_minutes := total_minutes
        mappingVariant := mapping.mappingVariant
        swapApplied := mapping.swapApplied }

/-- The payload of `fetch_yearly_report`.  The per-month regrouping of the
daily records (the `month_map` presentation loop) is not modelled; the
fields below cover the validation gate and the record/total computations
the claims are about. -/
structure YearlyReport where
  employee_name : String
  card_no : String
  department : Option String
  year : Nat
  daily_records : List DayRecordOut
  total_worked_days : Nat
  missing_punch_days : Nat
  total_minutes : Int
  total_duration_hhmm : Option String
  total_duration_readable : Option String
  totalInMinutes : Nat
  totalOutMinutes : Nat
  totalInHHMM : Option String
  totalOutHHMM : Option String
  total_work_minutes : Int
  mappingVariant : String
  swapApplied : Bool
deriving DecidableEq

/-- `fetch_yearly_report`: parse and range-check the year first (a
non-numeric or out-of-range year aborts with the 400 error before any query
runs), then build the year's records and totals. -/
def fetch_yearly_report (card_no year_value : String) (env : ReportEnv) :
    Except HttpError YearlyReport :=
  match _year_bounds year_value with
  | .error e => .error e
  | .ok (start, end_, y) =>
    let mapping := (_get_mapping_state env.variant env.inout_swap env.mapping_cache
      env.now env.sample).1
    let identity := _fetch_employee_identity card_no env.identity_row
    let daily_records := _build_daily_records_for_period env.variant env.table start
      end_ mapping.swapApplied env.shift_out_cutoff_hours
    let period_totals := _compute_period_segment_totals env.variant env.table
      start end_ mapping.swapApplied
    let total_worked_days := (daily_records.filter (fun r => r.first_in.isSome)).length
    let missing_punch_days := (daily_records.filter (fun r => r.missing_punch)).length
    let total_minutes : Int :=
      (daily_records.map (fun r => r.duration_minutes.getD 0)).sum
    .ok
      { employee_name := identity.employee_name
        card_no := identity.card_no
        department := identity.department
        year := y
        daily_records := daily_records
        total_worked_days := total_worked_days
        missing_punch_days := missing_punch_days
        total_minutes := total_minutes
        total_duration_hhmm := _minutes_to_hhmm (some total_minutes)
        total_duration_readable := format_duration_readable (some total_minutes)
        totalInMinutes := period_totals.totalInMinutes
        totalOutMinutes := period_totals.totalOutMinutes
        totalInHHMM := period_totals.totalInHHMM
        totalOutHHMM := period_totals.totalOutHHMM
        total_work_minutes := total_minutes
        mappingVariant := mapping.mappingVariant
        swapApplied := mapping.swapApplied }

/-- Modelled from the spec: the claim of C2 describes an anchor restricted
to resolvable (non-UNKNOWN) events — "the single most recent resolvable
event strictly before start", with resolvable events also fetched inside
the window.  This definition follows those words for the refinement
comparison with `_compute_period_segment_totals`; it is not part of the
code. -/
def specSegmentTotalsResolvableAnchor (variant : DetectorVariant) (tbl : List Event)
    (start end_ : Nat) (swap_applied : Bool) : PeriodTotals :=
  if end_ ≤ start then zeroPeriodTotals
  else if variant = .UNSUPPORTED then zeroPeriodTotals
  else
    let resolvable := fun (e : Event) =>
      e.inout_flag == some 0 || e.inout_flag == some 1
    let events := (_fetch_events_for_card variant tbl start end_).filter resolvable
    let timeline0 :=
      match (tbl.filter (fun e => decide (e.event_time < start) && resolvable e)).getLast? with
      | some anchor => anchor :: events
      | none => events
    if timeline0.isEmpty then zeroPeriodTotals
    else
      let timeline := sortByTime timeline0
      let final := walkFold swap_applied start end_ ([], none, none) timeline
      mkPeriodTotals final.1

/-! ## Helper lemmas -/

theorem mem_dayOutsAfterIn_le {first_in overnight_end : Nat} {day_events : List Event}
    {swap_applied : Bool} {t : Nat}
    (h : t ∈ dayOutsAfterIn first_in overnight_end day_events swap_applied) :
    first_in ≤ t := by
  simp only [dayOutsAfterIn, List.mem_map, List.mem_filter, Bool.and_eq_true,
    decide_eq_true_eq] at h
  obtain ⟨e, ⟨_, ⟨⟨hle, _⟩, _⟩⟩, rfl⟩ := h
  exact hle

theorem dayLastOut0_ge {day_start day_end overnight_end : Nat} {day_events : List Event}
    {swap_applied : Bool} {fi lo : Nat}
    (hfi : (dayInPrimary day_start day_end day_events swap_applied).min? = some fi)
    (hlo : dayLastOut0 day_start day_end overnight_end day_events swap_applied = some lo) :
    fi ≤ lo := by
  unfold dayLastOut0 at hlo
  rw [hfi] at hlo
  dsimp only at hlo
  cases hmax : (dayOutsAfterIn fi overnight_end day_events swap_applied).max? with
  | none => rw [hmax] at hlo; cases hlo
  | some lo' =>
    rw [hmax] at hlo
    dsimp only at hlo
    have hmem : lo' ∈ dayOutsAfterIn fi overnight_end day_events swap_applied :=
      List.max?_mem (fun a b => max_choice a b) hmax
    have hle : fi ≤ lo' := mem_dayOutsAfterIn_le hmem
    rw [if_neg (by omega : ¬ lo' < fi)] at hlo
    cases hlo
    exact hle

theorem duration_minutes_nonneg {a b : Option Nat} {d : Int}
    (h : _duration_minutes a b = some d) : 0 ≤ d := by
  unfold _duration_minutes at h
  match a, b with
  | some f, some l =>
    simp only at h
    by_cases hlt : l < f
    · rw [if_pos hlt] at h; cases h
    · rw [if_neg hlt] at h
      cases h
      have hnn : (0 : Int) ≤ (l : Int) - (f : Int) := by omega
      exact Int.ediv_nonneg hnn (by norm_num)
  | some _, none => cases h
  | none, _ => cases h

/-! ## Claim theorems: day attendance invariants -/

/-- C6: in the day attendance calculator the initially chosen `lastOut` (the
latest OUT of `[firstIn, dayEnd + cutoff)`) can never lie before `firstIn`,
so the `lastOut < firstIn` recompute path never changes the outcome and,
equivalently, every returned record with both endpoints present satisfies
`firstIn ≤ lastOut`. -/
theorem c6_last_out_not_before_first_in (day_start : Nat) (day_events : List Event)
    (swap_applied : Bool) (cutoff_hours : Nat) (fi lo : Nat)
    (h1 : (_compute_day_attendance day_start day_events swap_applied cutoff_hours).first_in_dt
      = some fi)
    (h2 : (_compute_day_attendance day_start day_events swap_applied cutoff_hours).last_out_dt
      = some lo) :
    fi ≤ lo := by
  simp only [_compute_day_attendance] at h1 h2
  by_cases hguard : ((dayInPrimary day_start (day_start + 86400) day_events swap_applied).min?.isSome &&
      (dayLastOut0 day_start (day_start + 86400) (day_start + 86400 + cutoff_hours * 3600) day_events swap_applied).isSome &&
      (_duration_minutes (dayInPrimary day_start (day_start + 86400) day_events swap_applied).min?
        (dayLastOut0 day_start (day_start + 86400) (day_start + 86400 + cutoff_hours * 3600) day_events swap_applied)).isNone) = true
  · rw [if_pos hguard] at h2; cases h2
  · rw [if_neg hguard] at h2
    exact dayLastOut0_ge h1 h2

/-- C6 witness: a concrete day with IN at second 100 and OUT at second 200. -/
theorem c6_last_out_not_before_first_in_witness :
    (_compute_day_attendance 0 [⟨100, some 1⟩, ⟨200, some 0⟩] false 6).first_in_dt = some 100 ∧
    (_compute_day_attendance 0 [⟨100, some 1⟩, ⟨200, some 0⟩] false 6).last_out_dt = some 200 ∧
    (100 : Nat) ≤ 200 :=
  ⟨by decide, by decide,
    c6_last_out_not_before_first_in 0 [⟨100, some 1⟩, ⟨200, some 0⟩] false 6 100 200
      (by decide) (by decide)⟩

/-- C7: every day record's `durationMinutes` is null or non-negative, and
whenever both endpoints are present in the returned record the duration is
the elapsed seconds floor-divided into whole minutes; a negative elapsed
time can never reach the returned record with both endpoints present. -/
theorem c7_duration_nonneg_and_floor (day_start : Nat) (day_events : List Event)
    (swap_applied : Bool) (cutoff_hours : Nat) :
    (∀ d : Int,
      (_compute_day_attendance day_start day_events swap_applied cutoff_hours).duration_minutes
        = some d → 0 ≤ d) ∧
    (∀ fi lo : Nat,
      (_compute_day_attendance day_start day_events swap_applied cutoff_hours).first_in_dt
        = some fi →
      (_compute_day_attendance day_start day_events swap_applied cutoff_hours).last_out_dt
        = some lo →
      (_compute_day_attendance day_start day_events swap_applied cutoff_hours).duration_minutes
        = some (((lo : Int) - (fi : Int)) / 60)) := by
  constructor
  · intro d h
    simp only [_compute_day_attendance] at h
    exact duration_minutes_nonneg h
  · intro fi lo h1 h2
    simp only [_compute_day_attendance] at h1 h2 ⊢
    by_cases hguard : ((dayInPrimary day_start (day_start + 86400) day_events swap_applied).min?.isSome &&
        (dayLastOut0 day_start (day_start + 86400) (day_start + 86400 + cutoff_hours * 3600) day_events swap_applied).isSome &&
        (_duration_minutes (dayInPrimary day_start (day_start + 86400) day_events swap_applied).min?
          (dayLastOut0 day_start (day_start + 86400) (day_start + 86400 + cutoff_hours * 3600) day_events swap_applied)).isNone) = true
    · rw [if_pos hguard] at h2; cases h2
    · rw [if_neg hguard] at h2
      have hge : fi ≤ lo := dayLastOut0_ge h1 h2
      rw [h1, h2]
      unfold _duration_minutes
      dsimp only
      rw [if_neg (by omega : ¬ lo < fi)]

/-- C7 witness: IN at second 100, OUT at second 200, duration 1 minute. -/
theorem c7_duration_nonneg_and_floor_witness :
    (_compute_day_attendance 0 [⟨100, some 1⟩, ⟨200, some 0⟩] false 6).first_in_dt = some 100 ∧
    (_compute_day_attendance 0 [⟨100, some 1⟩, ⟨200, some 0⟩] false 6).last_out_dt = some 200 ∧
    (_compute_day_attendance 0 [⟨100, some 1⟩, ⟨200, some 0⟩] false 6).duration_minutes =
      some (((200 : Int) - (100 : Int)) / 60) :=
  ⟨by decide, by decide,
    (c7_duration_nonneg_and_floor 0 [⟨100, some 1⟩, ⟨200, some 0⟩] false 6).2 100 200
      (by decide) (by decide)⟩

/-- C8: every record of the day attendance calculator satisfies
`missingPunch = (firstIn is null) XOR (lastOut is null)`, for any events,
polarity and cutoff. -/
theorem c8_missing_punch_xor (day_start : Nat) (day_events : List Event)
    (swap_applied : Bool) (cutoff_hours : Nat) :
    (_compute_day_attendance day_start day_events swap_applied cutoff_hours).missing_punch =
      ((_compute_day_attendance day_start day_events swap_applied cutoff_hours).first_in_dt.isNone ^^
        (_compute_day_attendance day_start day_events swap_applied cutoff_hours).last_out_dt.isNone) :=
  rfl

/-! ## Claim theorems: manual polarity override -/

/-- C4 counterexample: when the detector variant is UNSUPPORTED, a configured
manual override is ignored — the returned state is `unsupported` with
`swapApplied = false` and `manualOverride = false`, contradicting the claim
that every detector variant yields the swapped state. -/
theorem c4_counterexample :
    (_get_mapping_state .UNSUPPORTED true none 0 []).1.swapApplied = false ∧
    (_get_mapping_state .UNSUPPORTED true none 0 []).1.manualOverride = false ∧
    (_get_mapping_state .UNSUPPORTED true none 0 []).1.mappingVariant = "unsupported" := by
  refine ⟨rfl, rfl, rfl⟩

/-- C4 (amended): whenever the manual polarity override is configured and the
detector variant is supported (not UNSUPPORTED), the mapping state is
`swapped` with `swapApplied = true`, `manualOverride = true`,
`autoDetected = false`, the cache is untouched and no sampling query runs,
independent of any sample content. -/
theorem c4_manual_override_supported (variant : DetectorVariant)
    (cache : Option MappingCache) (now : Nat) (sample : List SampleRow)
    (h : variant ≠ .UNSUPPORTED) :
    _get_mapping_state variant true cache now sample =
      ({ mappingVariant := "swapped"
         swapApplied := true
         detectorVariant := variant
         autoDetected := false
         manualOverride := true }, cache, false) := by
  unfold _get_mapping_state
  rw [if_neg h]
  rfl

/-- C4 witness: a supported detector variant with a configured override. -/
theorem c4_manual_override_supported_witness :
    DetectorVariant.TEVENT_InOut_only ≠ DetectorVariant.UNSUPPORTED ∧
    _get_mapping_state .TEVENT_InOut_only true none 0 [] =
      ({ mappingVariant := "swapped"
         swapApplied := true
         detectorVariant := .TEVENT_InOut_only
         autoDetected := false
         manualOverride := true }, none, false) :=
  ⟨by decide, c4_manual_override_supported .TEVENT_InOut_only none 0 [] (by decide)⟩

/-! ## Claim theorems: employee listing -/

theorem employeeRowsLoop_length_le (rows : List EmployeeRow) :
    (employeeRowsLoop rows).length ≤ rows.length := by
  induction rows with
  | nil => simp [employeeRowsLoop]
  | cons row rest ih =>
    unfold employeeRowsLoop
    by_cases h : _clean_text row.CardNo = ""
    · rw [if_pos h]
      simp only [List.length_cons]
      omega
    · rw [if_neg h]
      simp only [List.length_cons]
      omega

theorem employeeRowsLoop_mem (rows : List EmployeeRow) (e : EmployeeEntry)
    (h : e ∈ employeeRowsLoop rows) : e.card_no ≠ "" ∧ e.employee_name ≠ "" := by
  induction rows with
  | nil => simp [employeeRowsLoop] at h
  | cons row rest ih =>
    unfold employeeRowsLoop at h
    by_cases hc : _clean_text row.CardNo = ""
    · rw [if_pos hc] at h
      exact ih h
    · rw [if_neg hc] at h
      rcases List.mem_cons.mp h with heq | hmem
      · subst heq
        refine ⟨hc, ?_⟩
        unfold _employee_name_or_card
        by_cases hn : _clean_text row.EmployeeName = ""
        · rw [if_pos hn]; exact hc
        · rw [if_neg hn]; exact hn
      · exact ih hmem

/-- C10: `fetch_employees` returns at most 200 entries; every returned entry
has a non-empty card number and a non-empty display name; a row whose
cleaned card number is empty (null or whitespace-only) is silently dropped
by the loop; and a blank employee name falls back to the card number. -/
theorem c10_fetch_employees_shape :
    (∀ rows : List EmployeeRow, (fetch_employees rows).length ≤ 200) ∧
    (∀ (rows : List EmployeeRow) (e : EmployeeEntry), e ∈ fetch_employees rows →
      e.card_no ≠ "" ∧ e.employee_name ≠ "") ∧
    (∀ (row : EmployeeRow) (rest : List EmployeeRow), _clean_text row.CardNo = "" →
      employeeRowsLoop (row :: rest) = employeeRowsLoop rest) ∧
    (∀ (row_name : Option String) (card : String), _clean_text row_name = "" →
      _employee_name_or_card row_name card = card) := by
  refine ⟨?_, ?_, ?_, ?_⟩
  · intro rows
    calc (fetch_employees rows).length ≤ (rows.take 200).length :=
          employeeRowsLoop_length_le _
      _ ≤ 200 := by simp
  · intro rows e h
    exact employeeRowsLoop_mem _ _ h
  · intro row rest h
    simp only [employeeRowsLoop]
    rw [if_pos h]
  · intro row_name card h
    unfold _employee_name_or_card
    rw [if_pos h]

/-- C10 witness: a whitespace-only card row is dropped and a null name falls
back to the card number. -/
theorem c10_fetch_employees_shape_witness :
    (⟨.strId "42", "42", "42"⟩ : EmployeeEntry) ∈
      fetch_employees [⟨none, some "  ", some "Bob", none⟩, ⟨none, some "42", none, none⟩] ∧
    (⟨.strId "42", "42", "42"⟩ : EmployeeEntry).card_no ≠ "" ∧
    (⟨.strId "42", "42", "42"⟩ : EmployeeEntry).employee_name ≠ "" :=
  ⟨by decide,
    c10_fetch_employees_shape.2.1
      [⟨none, some "  ", some "Bob", none⟩, ⟨none, some "42", none, none⟩]
      ⟨.strId "42", "42", "42"⟩ (by decide)⟩

/-! ## Claim theorems: polarity heuristic -/

/-- The membership test of the `valid` filter in `_should_auto_swap`. -/
def sampleIsValid (row : SampleRow) : Bool :=
  row.inout_flag == some 0 || row.inout_flag == some 1

/-- Number of sampled rows with a resolvable flag. -/
def sampleValidCount (sample : List SampleRow) : Nat :=
  (sample.filter sampleIsValid).length

/-- Number of IN-flagged rows with a timestamp. -/
def inTotalCount (sample : List SampleRow) : Nat :=
  sample.countP (fun row => row.event_time.isSome && (row.inout_flag == some 1))

/-- Number of IN-flagged rows whose hour of day lies in `[0, 6]`. -/
def inEarlyCount (sample : List SampleRow) : Nat :=
  sample.countP (fun row =>
    (match row.event_time with
     | some t => decide (sampleHour t ≤ 6)
     | none => false) && (row.inout_flag == some 1))

/-- Number of OUT-flagged rows with a timestamp. -/
def outTotalCount (sample : List SampleRow) : Nat :=
  sample.countP (fun row => row.event_time.isSome && (row.inout_flag == some 0))

/-- Number of OUT-flagged rows whose hour of day lies in `[12, 23]`. -/
def outLateCount (sample : List SampleRow) : Nat :=
  sample.countP (fun row =>
    (match row.event_time with
     | some t => decide (12 ≤ sampleHour t ∧ sampleHour t ≤ 23)
     | none => false) && (row.inout_flag == some 0))

theorem swap_tally_spec (l : List SampleRow) (acc : SwapTally) :
    l.foldl _swap_tally_step acc =
      ⟨acc.in_total + inTotalCount l, acc.in_early + inEarlyCount l,
       acc.out_total + outTotalCount l,
       acc.out_afternoon_evening + outLateCount l⟩ := by
  induction l generalizing acc with
  | nil => simp [inTotalCount, inEarlyCount, outTotalCount, outLateCount]
  | cons row rest ih =>
    rw [List.foldl_cons, ih]
    simp only [inTotalCount, inEarlyCount, outTotalCount, outLateCount,
      List.countP_cons]
    unfold _swap_tally_step
    cases hrt : row.event_time with
    | none => simp [hrt, SwapTally.mk.injEq]
    | some t =>
      by_cases h1 : row.inout_flag = some 1
      · by_cases hh : sampleHour t ≤ 6 <;>
          simp [hrt, h1, hh, SwapTally.mk.injEq] <;> omega
      · by_cases h0 : row.inout_flag = some 0
        · by_cases hh : 12 ≤ sampleHour t ∧ sampleHour t ≤ 23 <;>
            simp [hrt, h0, h1, hh, SwapTally.mk.injEq] <;> omega
        · simp [hrt, h0, h1, SwapTally.mk.injEq] <;> omega

theorem inTotalCount_filter_valid (sample : List SampleRow) :
    inTotalCount (sample.filter sampleIsValid) = inTotalCount sample := by
  unfold inTotalCount
  rw [List.countP_filter]
  refine List.countP_congr ?_
  intro row _
  unfold sampleIsValid
  cases row.inout_flag with
  | none => simp
  | some f => by_cases h1 : f = 1 <;> by_cases h0 : f = 0 <;> simp [h1, h0] <;> omega

theorem inEarlyCount_filter_valid (sample : List SampleRow) :
    inEarlyCount (sample.filter sampleIsValid) = inEarlyCount sample := by
  unfold inEarlyCount
  rw [List.countP_filter]
  refine List.countP_congr ?_
  intro row _
  unfold sampleIsValid
  cases row.inout_flag with
  | none => simp
  | some f => by_cases h1 : f = 1 <;> by_cases h0 : f = 0 <;> simp [h1, h0] <;> omega

theorem outTotalCount_filter_valid (sample : List SampleRow) :
    outTotalCount (sample.filter sampleIsValid) = outTotalCount sample := by
  unfold outTotalCount
  rw [List.countP_filter]
  refine List.countP_congr ?_
  intro row _
  unfold sampleIsValid
  cases row.inout_flag with
  | none => simp
  | some f => by_cases h1 : f = 1 <;> by_cases h0 : f = 0 <;> simp [h1, h0] <;> omega

theorem outLateCount_filter_valid (sample : List SampleRow) :
    outLateCount (sample.filter sampleIsValid) = outLateCount sample := by
  unfold outLateCount
  rw [List.countP_filter]
  refine List.countP_congr ?_
  intro row _
  unfold sampleIsValid
  cases row.inout_flag with
  | none => simp
  | some f => by_cases h1 : f = 1 <;> by_cases h0 : f = 0 <;> simp [h1, h0] <;> omega

theorem inEarly_le_inTotal (sample : List SampleRow) :
    inEarlyCount sample ≤ inTotalCount sample := by
  unfold inEarlyCount inTotalCount
  refine List.countP_mono_left ?_
  intro row _ h
  cases hrt : row.event_time <;> simp [hrt] at h ⊢ <;> exact h.2

theorem outLate_le_outTotal (sample : List SampleRow) :
    outLateCount sample ≤ outTotalCount sample := by
  unfold outLateCount outTotalCount
  refine List.countP_mono_left ?_
  intro row _ h
  cases hrt : row.event_time <;> simp [hrt] at h ⊢ <;> exact h.2

theorem should_auto_swap_spec (sample : List SampleRow) :
    _should_auto_swap sample =
      (decide (50 ≤ sampleValidCount sample) &&
        decide (3 * inTotalCount sample < 5 * inEarlyCount sample) &&
        decide (3 * outTotalCount sample < 5 * outLateCount sample)) := by
  unfold _should_auto_swap
  have hvc : sampleValidCount sample =
      (sample.filter (fun row => row.inout_flag == some 0 || row.inout_flag == some 1)).length := rfl
  by_cases hlen : (sample.filter (fun row =>
      row.inout_flag == some 0 || row.inout_flag == some 1)).length < 50
  · rw [if_pos hlen]
    have hn : ¬ 50 ≤ sampleValidCount sample := by omega
    simp [hn]
  · rw [if_neg hlen]
    have h50 : decide (50 ≤ sampleValidCount sample) = true := by
      simp; omega
    have hfold := swap_tally_spec (sample.filter sampleIsValid) ⟨0, 0, 0, 0⟩
    have hfv : (sample.filter (fun row =>
        row.inout_flag == some 0 || row.inout_flag == some 1)) =
        sample.filter sampleIsValid := rfl
    rw [hfv, hfold]
    simp only [inTotalCount_filter_valid, inEarlyCount_filter_valid,
      outTotalCount_filter_valid, outLateCount_filter_valid, Nat.zero_add]
    by_cases hin : inTotalCount sample = 0
    · have hez : inEarlyCount sample = 0 := by
        have := inEarly_le_inTotal sample; omega
      simp [hin, hez]
    · by_cases hout : outTotalCount sample = 0
      · have hlz : outLateCount sample = 0 := by
          have := outLate_le_outTotal sample; omega
        simp [hin, hout, hlz]
      · simp [hin, hout, h50]

/-- The claim's synthetic 200-event sample: 70% of the 100 IN events at hour
3, the rest at hour 8; 70% of the 100 OUT events at hour 18, the rest at
hour 8. -/
def swapSampleTrue : List SampleRow :=
  List.replicate 70 ⟨some 10800, some 1⟩ ++ List.replicate 30 ⟨some 28800, some 1⟩ ++
    List.replicate 70 ⟨some 64800, some 0⟩ ++ List.replicate 30 ⟨some 28800, some 0⟩

/-- The same sample with the IN and OUT flags reversed. -/
def swapSampleFlipped : List SampleRow :=
  List.replicate 70 ⟨some 10800, some 0⟩ ++ List.replicate 30 ⟨some 28800, some 0⟩ ++
    List.replicate 70 ⟨some 64800, some 1⟩ ++ List.replicate 30 ⟨some 28800, some 1⟩

/-- C5: the heuristic returns `swapped = false` whenever fewer than 50 rows
have a resolvable flag, and otherwise returns true exactly when both the
IN-early and OUT-late fractions exceed 0.60 (the rational form of the two
ratio tests; an empty IN or OUT population fails its test); on a cache miss
without override, `swapApplied` and `autoDetected` both equal the heuristic
result; and the claim's concrete 200-event sample swaps while its flag
reversed variant does not. -/
theorem c5_should_auto_swap_characterisation :
    (∀ sample : List SampleRow,
      _should_auto_swap sample =
        (decide (50 ≤ sampleValidCount sample) &&
          decide (3 * inTotalCount sample < 5 * inEarlyCount sample) &&
          decide (3 * outTotalCount sample < 5 * outLateCount sample))) ∧
    (∀ (variant : DetectorVariant) (now : Nat) (sample : List SampleRow),
      variant ≠ .UNSUPPORTED →
      (_get_mapping_state variant false none now sample).1.swapApplied =
          _should_auto_swap sample ∧
        (_get_mapping_state variant false none now sample).1.autoDetected =
          _should_auto_swap sample) ∧
    _should_auto_swap swapSampleTrue = true ∧
    _should_auto_swap swapSampleFlipped = false := by
  refine ⟨should_auto_swap_spec, ?_, ?_, ?_⟩
  · intro variant now sample h
    unfold _get_mapping_state
    rw [if_neg h]
    exact ⟨rfl, rfl⟩
  · set_option maxRecDepth 4000 in decide
  · set_option maxRecDepth 4000 in decide

/-- C5 witness: the mapping-state part applied to the concrete sample. -/
theorem c5_should_auto_swap_characterisation_witness :
    (_get_mapping_state .TEVENT_InOut_only false none 0 swapSampleTrue).1.swapApplied =
      _should_auto_swap swapSampleTrue :=
  (c5_should_auto_swap_characterisation.2.1 .TEVENT_InOut_only 0 swapSampleTrue
    (by decide)).1

/-! ## Claim theorems: input validation -/

/-- A minimal report environment: supported detector, empty event table,
no override, no cache, empty sample, no identity row. -/
def emptyReportEnv : ReportEnv :=
  ⟨.TEVENT_InOut_only, [], false, 12, none, 0, [], none⟩

/-- C9 counterexample: `0500-01-01` is well-formed for `strptime` but its
year lies outside 1900-2100, and `fetch_daily_report` still succeeds — the
range check of the claim exists only for the yearly report. -/
theorem c9_counterexample :
    _parse_date "0500-01-01" = .ok (500, 1, 1) ∧
    (fetch_daily_report "7" "0500-01-01" emptyReportEnv).isOk = true := by
  exact ⟨rfl, rfl⟩

theorem parse_date_error_eq {s : String} {e : HttpError}
    (h : _parse_date s = .error e) :
    e = ⟨400, "date must be in YYYY-MM-DD format"⟩ := by
  unfold _parse_date at h
  split at h
  · split at h
    · split at h
      · cases h
      · cases h; rfl
    · cases h; rfl
  · cases h; rfl

theorem month_bounds_error_eq {s : String} {e : HttpError}
    (h : _month_bounds s = .error e) :
    e = ⟨400, "month must be in YYYY-MM format"⟩ := by
  unfold _month_bounds at h
  split at h
  · split at h
    · split at h
      · cases h
      · cases h; rfl
    · cases h; rfl
  · cases h; rfl

theorem year_bounds_error_status {s : String} {e : HttpError}
    (h : _year_bounds s = .error e) : e.status = 400 := by
  unfold _year_bounds at h
  split at h
  · cases h; rfl
  · split at h
    · cases h; rfl
    · cases h

/-- C9 (amended): a date, month or year string the corresponding validator
rejects makes `fetch_daily_report`, `fetch_monthly_report` or
`fetch_yearly_report` return that 400 error, for every environment — so the
result depends on nothing the database or caches provide and no query
affects it; and a numeric year outside 1900-2100 is rejected by the
yearly validator (only there; the daily/monthly parsers accept any
`strptime`-valid year, see the C9 counterexample). -/
theorem c9_malformed_input_rejected :
    (∀ (card s : String) (e : HttpError) (env : ReportEnv),
      _parse_date s = .error e →
        fetch_daily_report card s env = .error e ∧ e.status = 400) ∧
    (∀ (card s : String) (e : HttpError) (env : ReportEnv),
      _month_bounds s = .error e →
        fetch_monthly_report card s env = .error e ∧ e.status = 400) ∧
    (∀ (card s : String) (e : HttpError) (env : ReportEnv),
      _year_bounds s = .error e →
        fetch_yearly_report card s env = .error e ∧ e.status = 400) ∧
    (∀ (s : String) (i : Int), pythonInt s = some i → (i < 1900 ∨ 2100 < i) →
      _year_bounds s = .error ⟨400, "year is out of accepted range"⟩) := by
  refine ⟨?_, ?_, ?_, ?_⟩
  · intro card s e env h
    refine ⟨?_, ?_⟩
    · unfold fetch_daily_report
      rw [h]
    · rw [parse_date_error_eq h]
  · intro card s e env h
    refine ⟨?_, ?_⟩
    · unfold fetch_monthly_report
      rw [h]
    · rw [month_bounds_error_eq h]
  · intro card s e env h
    exact ⟨by unfold fetch_yearly_report; rw [h], year_bounds_error_status h⟩
  · intro s i hp hr
    unfold _year_bounds
    rw [hp]
    dsimp only
    rw [if_pos hr]

/-- C9 witness: a malformed date string rejected by the daily report. -/
theorem c9_malformed_input_rejected_witness :
    fetch_daily_report "7" "not-a-date" emptyReportEnv =
      .error ⟨400, "date must be in YYYY-MM-DD format"⟩ ∧
    (⟨400, "date must be in YYYY-MM-DD format"⟩ : HttpError).status = 400 :=
  c9_malformed_input_rejected.1 "7" "not-a-date"
    ⟨400, "date must be in YYYY-MM-DD format"⟩ emptyReportEnv rfl

/-! ## Claim theorems: overnight shift example -/

theorem buildDaysLoop_stop (events : List Event) (day_cursor end_ : Nat)
    (swap_applied : Bool) (cutoff_hours : Nat) (h : ¬ day_cursor < end_) :
    buildDaysLoop events day_cursor end_ swap_applied cutoff_hours = [] := by
  rw [buildDaysLoop]
  simp [h]

theorem buildDaysLoop_step (events : List Event) (day_cursor end_ : Nat)
    (swap_applied : Bool) (cutoff_hours : Nat) (h : day_cursor < end_) :
    buildDaysLoop events day_cursor end_ swap_applied cutoff_hours =
      (if (_compute_day_attendance day_cursor
            ((events.dropWhile (fun e => decide (e.event_time < day_cursor))).takeWhile
              (fun e => decide (e.event_time < day_cursor + 86400 + cutoff_hours * 3600)))
            swap_applied cutoff_hours).has_relevant_events then
          [_serialize_day_record (_compute_day_attendance day_cursor
            ((events.dropWhile (fun e => decide (e.event_time < day_cursor))).takeWhile
              (fun e => decide (e.event_time < day_cursor + 86400 + cutoff_hours * 3600)))
            swap_applied cutoff_hours)]
        else []) ++
        buildDaysLoop (events.dropWhile (fun e => decide (e.event_time < day_cursor)))
          (day_cursor + 86400) end_ swap_applied cutoff_hours := by
  conv_lhs => rw [buildDaysLoop]
  simp [h]

/-- The overnight example's event table: IN at 2024-01-01T22:00, OUT at
2024-01-02T03:00. -/
def overnightTable : List Event :=
  [⟨civilSeconds 2024 1 1 22 0, some 1⟩, ⟨civilSeconds 2024 1 2 3 0, some 0⟩]

/-- C1 counterexample: with shift cutoff 6 and the overnight IN/OUT pair,
the period listing over 2024-01-01 .. 2024-01-02 does contain a separate
day record dated 2024-01-02 (the overnight OUT also produces an OUT-only
missing-punch record), contrary to the claim. -/
theorem c1_counterexample :
    (_build_daily_records_for_period .TEVENT_InOut_only overnightTable
        (toDayIndex 2024 1 1 * 86400) (toDayIndex 2024 1 3 * 86400) false 6).filter
      (fun r => r.date == toDayIndex 2024 1 2) ≠ [] := by
  unfold _build_daily_records_for_period
  rw [buildDaysLoop_step _ _ _ _ _ (by decide),
    buildDaysLoop_step _ _ _ _ _ (by decide),
    buildDaysLoop_stop _ _ _ _ _ (by decide)]
  decide

/-- C1 (amended): with shift cutoff 6, the day record for 2024-01-01 has
firstIn 22:00, lastOut 03:00 of the next day, 300 minutes and no missing
punch; but the period listing over a range covering both days contains, in
addition, an OUT-only missing-punch record for 2024-01-02 produced by the
same overnight OUT event. -/
theorem c1_overnight_day_records :
    _compute_day_attendance (toDayIndex 2024 1 1 * 86400) overnightTable false 6 =
      ⟨toDayIndex 2024 1 1, some (civilSeconds 2024 1 1 22 0),
        some (civilSeconds 2024 1 2 3 0), some 300, some "05:00", false, true⟩ ∧
    _build_daily_records_for_period .TEVENT_InOut_only overnightTable
        (toDayIndex 2024 1 1 * 86400) (toDayIndex 2024 1 3 * 86400) false 6 =
      [⟨toDayIndex 2024 1 1, some (civilSeconds 2024 1 1 22 0),
          some (civilSeconds 2024 1 2 3 0), some 300, some "05:00", false⟩,
        ⟨toDayIndex 2024 1 2, none, some (civilSeconds 2024 1 2 3 0), none, none, true⟩] := by
  constructor
  · rfl
  · unfold _build_daily_records_for_period
    rw [buildDaysLoop_step _ _ _ _ _ (by decide),
      buildDaysLoop_step _ _ _ _ _ (by decide),
      buildDaysLoop_stop _ _ _ _ _ (by decide)]
    rfl

/-! ## Claim theorems: segment accumulator anchor -/

theorem insertByTime_sorted_head (e : Event) (l : List Event)
    (h : ∀ f ∈ l, e.event_time ≤ f.event_time) :
    insertByTime e l = e :: l := by
  cases l with
  | nil => rfl
  | cons f rest =>
    unfold insertByTime
    rw [if_pos (h f (List.mem_cons_self f rest))]

theorem sortByTime_eq_self (l : List Event) (h : SortedByTime l) :
    sortByTime l = l := by
  induction l with
  | nil => rfl
  | cons x rest ih =>
    unfold SortedByTime at h
    rcases List.pairwise_cons.mp h with ⟨hx, hrest⟩
    have hstep : sortByTime (x :: rest) = insertByTime x (sortByTime rest) := rfl
    rw [hstep, ih hrest, insertByTime_sorted_head x rest hx]

theorem getLast?_mem' {l : List Event} {a : Event} (h : l.getLast? = some a) :
    a ∈ l := by
  rcases List.getLast?_eq_some_iff.mp h with ⟨ys, rfl⟩
  exact List.mem_append_right ys (List.mem_singleton_self a)

/-- The table whose unresolvable most recent pre-window event hides the
earlier resolvable one: IN at 10, UNKNOWN at 50, OUT at 160 inside the
window `[100, 220)`. -/
def anchorTable : List Event := [⟨10, some 1⟩, ⟨50, none⟩, ⟨160, some 0⟩]

/-- C2 counterexample: the code's anchor is the most recent event before the
window regardless of resolvability, so with an UNKNOWN event between the
last resolvable event and the window start the walk does not begin in that
resolvable event's state: the computed totals (0 IN minutes) differ from the
spec-modelled resolvable-anchor totals (1 IN minute). -/
theorem c2_counterexample :
    _compute_period_segment_totals .TEVENT_InOut_only anchorTable 100 220 false ≠
      specSegmentTotalsResolvableAnchor .TEVENT_InOut_only anchorTable 100 220 false := by
  intro h
  have h1 : (_compute_period_segment_totals .TEVENT_InOut_only anchorTable 100 220
      false).totalInMinutes = 0 := rfl
  have h2 : (specSegmentTotalsResolvableAnchor .TEVENT_InOut_only anchorTable 100 220
      false).totalInMinutes = 1 := by
    simp [specSegmentTotalsResolvableAnchor, _fetch_events_for_card, anchorTable,
      sortByTime, insertByTime, walkFold, walkStep, _event_state,
      _accumulate_segment_minutes, accumChunks, nextMidnight, addDayMinutes,
      mkPeriodTotals, totalIn, zeroPeriodTotals]
  rw [h] at h1
  rw [h1] at h2
  cases h2

/-- C2 (amended): the accumulator's timeline is seeded by the single most
recent event strictly before the window, of any flag: when that anchor's
normalised flag is resolvable the walk begins in the anchor's state at the
anchor's time, and when it is UNKNOWN the anchor contributes nothing and the
walk starts fresh on the window's events. -/
theorem c2_anchor_seeds_walk (tbl : List Event) (start end_ : Nat)
    (swap_applied : Bool) (variant : DetectorVariant) (a : Event)
    (hsort : SortedByTime tbl) (hv : variant ≠ .UNSUPPORTED) (hse : start < end_)
    (ha : _fetch_last_event_before variant tbl start = some a) :
    (∀ s : Nat, _event_state a swap_applied = some s →
      _compute_period_segment_totals variant tbl start end_ swap_applied =
        mkPeriodTotals (walkFold swap_applied start end_ ([], some s, some a.event_time)
          (_fetch_events_for_card variant tbl start end_)).1) ∧
    (_event_state a swap_applied = none →
      _compute_period_segment_totals variant tbl start end_ swap_applied =
        mkPeriodTotals (walkFold swap_applied start end_ ([], none, none)
          (_fetch_events_for_card variant tbl start end_)).1) := by
  have hfb : (tbl.filter (fun e => decide (e.event_time < start))).getLast? = some a := by
    unfold _fetch_last_event_before at ha
    rw [if_neg hv] at ha
    exact ha
  have hamem : a ∈ tbl.filter (fun e => decide (e.event_time < start)) := getLast?_mem' hfb
  have halt : a.event_time < start := by
    have := (List.mem_filter.mp hamem).2
    simpa using this
  have hev : _fetch_events_for_card variant tbl start end_ =
      tbl.filter (fun e => decide (start ≤ e.event_time) && decide (e.event_time < end_)) := by
    unfold _fetch_events_for_card
    rw [if_neg hv]
  have hevsorted : SortedByTime (_fetch_events_for_card variant tbl start end_) := by
    rw [hev]
    exact List.Pairwise.filter _ hsort
  have hevge : ∀ f ∈ _fetch_events_for_card variant tbl start end_,
      start ≤ f.event_time := by
    rw [hev]
    intro f hf
    have hmf := (List.mem_filter.mp hf).2
    simp at hmf
    exact hmf.1
  have hconssorted : SortedByTime (a :: _fetch_events_for_card variant tbl start end_) := by
    unfold SortedByTime
    rw [List.pairwise_cons]
    exact ⟨fun f hf => le_of_lt (lt_of_lt_of_le halt (hevge f hf)), hevsorted⟩
  have hkey :
      _compute_period_segment_totals variant tbl start end_ swap_applied =
        mkPeriodTotals (walkFold swap_applied start end_
          (walkStep swap_applied start end_ ([], none, none) a)
          (_fetch_events_for_card variant tbl start end_)).1 := by
    unfold _compute_period_segment_totals
    rw [if_neg (by omega : ¬ end_ ≤ start), if_neg hv, ha]
    dsimp only
    have hne : (a :: _fetch_events_for_card variant tbl start end_).isEmpty = false := rfl
    rw [hne]
    rw [if_neg Bool.false_ne_true]
    rw [sortByTime_eq_self _ hconssorted]
    rfl
  constructor
  · intro s hs
    rw [hkey]
    have hstep : walkStep swap_applied start end_ ([], none, none) a =
        ([], some s, some a.event_time) := by
      unfold walkStep
      rw [hs]
    rw [hstep]
  · intro hs
    rw [hkey]
    have hstep : walkStep swap_applied start end_ ([], none, none) a = ([], none, none) := by
      unfold walkStep
      rw [hs]
    rw [hstep]

/-- C2 witness: a resolvable IN anchor at time 10 seeds the walk over the
window `[100, 220)`. -/
theorem c2_anchor_seeds_walk_witness :
    _compute_period_segment_totals .TEVENT_InOut_only
        [⟨10, some 1⟩, ⟨160, some 0⟩] 100 220 false =
      mkPeriodTotals (walkFold false 100 220 ([], some 1, some 10)
        (_fetch_events_for_card .TEVENT_InOut_only
          [⟨10, some 1⟩, ⟨160, some 0⟩] 100 220)).1 :=
  (c2_anchor_seeds_walk [⟨10, some 1⟩, ⟨160, some 0⟩] 100 220 false
    .TEVENT_InOut_only ⟨10, some 1⟩ (by decide) (by decide) (by decide) rfl).1 1 rfl

/-! ## Claim theorems: segment additivity -/

theorem accumChunks_stop (dt : DayTotals) (state cursor stop : Nat)
    (h : ¬ cursor < stop) : accumChunks dt state cursor stop = dt := by
  rw [accumChunks]
  simp [h]

theorem accumChunks_step (dt : DayTotals) (state cursor stop : Nat)
    (h : cursor < stop) :
    accumChunks dt state cursor stop =
      accumChunks
        (if (min stop (nextMidnight cursor) - cursor) / 60 > 0 then
          addDayMinutes dt (cursor / 86400) state ((min stop (nextMidnight cursor) - cursor) / 60)
        else dt)
        state (min stop (nextMidnight cursor)) stop := by
  conv_lhs => rw [accumChunks]
  simp [h]

theorem lt_nextMidnight (t : Nat) : t < nextMidnight t := by
  simp only [nextMidnight]; omega

theorem nextMidnight_le_of_lt_midnight {t m : Nat} (hm : m % 86400 = 0)
    (h : t < m) : nextMidnight t ≤ m := by
  simp only [nextMidnight]; omega

theorem getIn_addDayMinutes (dt : DayTotals) (day state minutes d : Nat) :
    getIn (addDayMinutes dt day state minutes) d =
      getIn dt d + (if state = 1 ∧ day = d then minutes else 0) := by
  induction dt with
  | nil =>
    by_cases h1 : state = 1 <;> by_cases hd : day = d <;>
      simp [addDayMinutes, getIn, h1, hd] <;>
      by_cases h0 : state = 0 <;> simp [h0, getIn, hd] <;> omega
  | cons b rest ih =>
    by_cases hb : b.day = day
    · by_cases h1 : state = 1 <;> by_cases hd : day = d <;>
        simp [addDayMinutes, getIn, hb, h1, hd] <;>
        by_cases h0 : state = 0 <;>
        simp [h0, getIn, hb, hd] <;> omega
    · by_cases hd : b.day = d
      · have hdd : ¬ day = d := by intro he; exact hb (hd.trans he.symm)
        have hdd2 : ¬ d = day := fun he => hdd he.symm
        simp [addDayMinutes, getIn, hb, hd, hdd, hdd2]
      · simp [addDayMinutes, getIn, hb, hd, ih]

theorem getOut_addDayMinutes (dt : DayTotals) (day state minutes d : Nat) :
    getOut (addDayMinutes dt day state minutes) d =
      getOut dt d + (if state = 0 ∧ day = d then minutes else 0) := by
  induction dt with
  | nil =>
    by_cases h0 : state = 0 <;> by_cases hd : day = d <;>
      simp [addDayMinutes, getOut, h0, hd] <;>
      by_cases h1 : state = 1 <;> simp [h1, getOut, hd] <;> omega
  | cons b rest ih =>
    by_cases hb : b.day = day
    · by_cases h0 : state = 0 <;> by_cases hd : day = d <;>
        simp [addDayMinutes, getOut, hb, h0, hd] <;>
        by_cases h1 : state = 1 <;>
        simp [h1, getOut, hb, hd] <;> omega
    · by_cases hd : b.day = d
      · have hdd : ¬ day = d := by intro he; exact hb (hd.trans he.symm)
        have hdd2 : ¬ d = day := fun he => hdd he.symm
        simp [addDayMinutes, getOut, hb, hd, hdd, hdd2]
      · simp [addDayMinutes, getOut, hb, hd, ih]

theorem totalIn_addDayMinutes (dt : DayTotals) (day state minutes : Nat) :
    totalIn (addDayMinutes dt day state minutes) =
      totalIn dt + (if state = 1 then minutes else 0) := by
  induction dt with
  | nil =>
    by_cases h1 : state = 1 <;> by_cases h0 : state = 0 <;>
      simp [addDayMinutes, totalIn, h1, h0]
  | cons b rest ih =>
    by_cases hb : b.day = day
    · by_cases h1 : state = 1 <;> by_cases h0 : state = 0 <;>
        simp [addDayMinutes, totalIn, hb, h1, h0] <;> omega
    · simp [addDayMinutes, totalIn, hb, ih]
      omega

theorem totalOut_addDayMinutes (dt : DayTotals) (day state minutes : Nat) :
    totalOut (addDayMinutes dt day state minutes) =
      totalOut dt + (if state = 0 then minutes else 0) := by
  induction dt with
  | nil =>
    by_cases h1 : state = 1 <;> by_cases h0 : state = 0 <;>
      simp [addDayMinutes, totalOut, h1, h0]
  | cons b rest ih =>
    by_cases hb : b.day = day
    · by_cases h1 : state = 1 <;> by_cases h0 : state = 0 <;>
        simp [addDayMinutes, totalOut, hb, h1, h0] <;> omega
    · simp [addDayMinutes, totalOut, hb, ih]
      omega

theorem accumChunks_measure_acc (μ : DayTotals → Nat) (w : Nat → Nat → Nat → Nat)
    (hnil : μ [] = 0)
    (hadd : ∀ dt day s m, μ (addDayMinutes dt day s m) = μ dt + w day s m) :
    ∀ n dt state cursor stop, stop - cursor ≤ n →
      μ (accumChunks dt state cursor stop) =
        μ dt + μ (accumChunks [] state cursor stop) := by
  intro n
  induction n with
  | zero =>
    intro dt state cursor stop hn
    have h : ¬ cursor < stop := by omega
    rw [accumChunks_stop _ _ _ _ h, accumChunks_stop _ _ _ _ h, hnil]
    omega
  | succ n ih =>
    intro dt state cursor stop hn
    by_cases h : cursor < stop
    · have hlt : cursor < min stop (nextMidnight cursor) :=
        lt_min h (lt_nextMidnight cursor)
      rw [accumChunks_step dt _ _ _ h, accumChunks_step ([]) _ _ _ h]
      by_cases hmin : (min stop (nextMidnight cursor) - cursor) / 60 > 0
      · rw [if_pos hmin, if_pos hmin]
        rw [ih (addDayMinutes dt (cursor / 86400) state
            ((min stop (nextMidnight cursor) - cursor) / 60)) state
            (min stop (nextMidnight cursor)) stop (by omega)]
        rw [ih (addDayMinutes [] (cursor / 86400) state
            ((min stop (nextMidnight cursor) - cursor) / 60)) state
            (min stop (nextMidnight cursor)) stop (by omega)]
        rw [hadd, hadd, hnil]
        omega
      · rw [if_neg hmin, if_neg hmin]
        rw [ih dt state (min stop (nextMidnight cursor)) stop (by omega)]
    · rw [accumChunks_stop _ _ _ _ h, accumChunks_stop _ _ _ _ h, hnil]
      omega

theorem accumChunks_measure_split (μ : DayTotals → Nat) (w : Nat → Nat → Nat → Nat)
    (hnil : μ [] = 0)
    (hadd : ∀ dt day s m, μ (addDayMinutes dt day s m) = μ dt + w day s m) :
    ∀ n state cursor stop m, m % 86400 = 0 → stop - cursor ≤ n →
      μ (accumChunks [] state cursor stop) =
        μ (accumChunks [] state cursor (min stop m)) +
          μ (accumChunks [] state (max cursor m) stop) := by
  intro n
  induction n with
  | zero =>
    intro state cursor stop m hm hn
    have h : ¬ cursor < stop := by omega
    rw [accumChunks_stop _ _ _ _ h, accumChunks_stop _ _ _ _ (by omega),
      accumChunks_stop _ _ _ _ (by omega), hnil]
  | succ n ih =>
    intro state cursor stop m hm hn
    by_cases h : cursor < stop
    · by_cases h1 : m ≤ cursor
      · rw [accumChunks_stop ([]) state cursor (min stop m) (by omega)]
        have hmax : max cursor m = cursor := by omega
        rw [hmax, hnil]
        omega
      · by_cases h2 : stop ≤ m
        · rw [accumChunks_stop ([]) state (max cursor m) stop (by omega)]
          have hmin : min stop m = stop := by omega
          rw [hmin, hnil]
          omega
        · push_neg at h1 h2
          have hmid := lt_nextMidnight cursor
          have hnm : nextMidnight cursor ≤ m := nextMidnight_le_of_lt_midnight hm h1
          have hce : min stop (nextMidnight cursor) = nextMidnight cursor := by omega
          have hminm : min stop m = m := by omega
          have hmaxm : max cursor m = m := by omega
          have hce2 : min m (nextMidnight cursor) = nextMidnight cursor := by omega
          have hacc := accumChunks_measure_acc μ w hnil hadd
          have e1 : μ (accumChunks [] state cursor stop)
              = (if (nextMidnight cursor - cursor) / 60 > 0 then
                  w (cursor / 86400) state ((nextMidnight cursor - cursor) / 60) else 0)
                + μ (accumChunks [] state (nextMidnight cursor) stop) := by
            rw [accumChunks_step _ _ _ _ h, hce,
              hacc (stop - nextMidnight cursor) _ _ _ _ (by omega)]
            by_cases hmin0 : (nextMidnight cursor - cursor) / 60 > 0
            · rw [if_pos hmin0, if_pos hmin0, hadd, hnil]
              omega
            · rw [if_neg hmin0, if_neg hmin0, hnil]
          have e2 : μ (accumChunks [] state cursor m)
              = (if (nextMidnight cursor - cursor) / 60 > 0 then
                  w (cursor / 86400) state ((nextMidnight cursor - cursor) / 60) else 0)
                + μ (accumChunks [] state (nextMidnight cursor) m) := by
            rw [accumChunks_step _ _ _ _ h1, hce2,
              hacc (m - nextMidnight cursor) _ _ _ _ (by omega)]
            by_cases hmin0 : (nextMidnight cursor - cursor) / 60 > 0
            · rw [if_pos hmin0, if_pos hmin0, hadd, hnil]
              omega
            · rw [if_neg hmin0, if_neg hmin0, hnil]
          have e3 : μ (accumChunks [] state (nextMidnight cursor) stop)
              = μ (accumChunks [] state (nextMidnight cursor) m) +
                  μ (accumChunks [] state m stop) := by
            have hh := ih state (nextMidnight cursor) stop m hm (by omega)
            have hmx : max (nextMidnight cursor) m = m := by omega
            rw [hminm, hmx] at hh
            exact hh
          rw [e1, e3, hminm, hmaxm, e2]
          omega
    · rw [accumChunks_stop _ _ _ _ h, accumChunks_stop _ _ _ _ (by omega),
        accumChunks_stop _ _ _ _ (by omega), hnil]

theorem accumulate_nil_eq_chunks (state segment_start segment_end window_start window_end : Nat) :
    _accumulate_segment_minutes [] state segment_start segment_end window_start window_end =
      accumChunks [] state (max segment_start window_start) (min segment_end window_end) := by
  unfold _accumulate_segment_minutes
  by_cases h : min segment_end window_end ≤ max segment_start window_start
  · rw [if_pos h, accumChunks_stop _ _ _ _ (by omega)]
  · rw [if_neg h]

theorem accumulate_measure_binary_split (μ : DayTotals → Nat) (w : Nat → Nat → Nat → Nat)
    (hnil : μ [] = 0)
    (hadd : ∀ dt day s m, μ (addDayMinutes dt day s m) = μ dt + w day s m)
    (state segment_start segment_end window_start m window_end : Nat)
    (hm : m % 86400 = 0) (h1 : window_start ≤ m) (h2 : m ≤ window_end) :
    μ (_accumulate_segment_minutes [] state segment_start segment_end window_start window_end) =
      μ (_accumulate_segment_minutes [] state segment_start segment_end window_start m) +
        μ (_accumulate_segment_minutes [] state segment_start segment_end m window_end) := by
  rw [accumulate_nil_eq_chunks, accumulate_nil_eq_chunks, accumulate_nil_eq_chunks]
  have hsplit := accumChunks_measure_split μ w hnil hadd
    (min segment_end window_end - max segment_start window_start) state
    (max segment_start window_start) (min segment_end window_end) m hm (by omega)
  have hmineq : min (min segment_end window_end) m = min segment_end m := by omega
  have hmaxeq : max (max segment_start window_start) m = max segment_start m := by omega
  rw [hmineq, hmaxeq] at hsplit
  exact hsplit

/-- The consecutive sub-windows `[ws, c1), [c1, c2), ..., [ck, we)` of a
partition of `[ws, we)` at the cut points `c1 ≤ ... ≤ ck`. -/
def segWindows : Nat → List Nat → Nat → List (Nat × Nat)
  | ws, [], we => [(ws, we)]
  | ws, c :: rest, we => (ws, c) :: segWindows c rest we

theorem chain_head_le_last {c we : Nat} {rest : List Nat}
    (h : List.Pairwise (fun a b => a ≤ b) (c :: rest ++ [we])) : c ≤ we := by
  rcases List.pairwise_cons.mp h with ⟨hc, _⟩
  exact hc we (List.mem_append_right rest (List.mem_singleton_self we))

theorem accumulate_measure_parts (μ : DayTotals → Nat) (w : Nat → Nat → Nat → Nat)
    (hnil : μ [] = 0)
    (hadd : ∀ dt day s m, μ (addDayMinutes dt day s m) = μ dt + w day s m)
    (state segment_start segment_end : Nat) :
    ∀ (cuts : List Nat) (window_start window_end : Nat),
      List.Pairwise (fun a b => a ≤ b) (window_start :: cuts ++ [window_end]) →
      (∀ c ∈ cuts, c % 86400 = 0) →
      μ (_accumulate_segment_minutes [] state segment_start segment_end
          window_start window_end) =
        ((segWindows window_start cuts window_end).map (fun p =>
          μ (_accumulate_segment_minutes [] state segment_start segment_end p.1 p.2))).sum := by
  intro cuts
  induction cuts with
  | nil =>
    intro ws we hchain hmid
    simp [segWindows]
  | cons c rest ih =>
    intro ws we hchain hmid
    have htail : List.Pairwise (fun a b => a ≤ b) (c :: rest ++ [we]) :=
      (List.pairwise_cons.mp hchain).2
    have hwsc : ws ≤ c := by
      rcases List.pairwise_cons.mp hchain with ⟨hws, _⟩
      exact hws c (List.mem_cons_self c (rest ++ [we]))
    have hcwe : c ≤ we := chain_head_le_last htail
    have hbin := accumulate_measure_binary_split μ w hnil hadd state segment_start
      segment_end ws c we (hmid c (List.mem_cons_self c rest)) hwsc hcwe
    rw [hbin, ih c we htail (fun x hx => hmid x (List.mem_cons_of_mem c hx))]
    simp [segWindows]

def splitTable : List Event := [⟨600, some 1⟩, ⟨4800, some 0⟩]

/-- C3 counterexample: with IN at 600s and OUT at 4800s, the totals over
`[0, 6000)` are 70 IN minutes, but the windows of the partition
`[0, 3600), [3600, 6000)` computed independently contribute 0 and 20 IN
minutes: the full period computation is not additive across sub-ranges,
because each sub-range refetches events and drops its trailing open
segment. -/
theorem c3_counterexample :
    (_compute_period_segment_totals .TEVENT_InOut_only splitTable 0 6000 false).totalInMinutes ≠
      (_compute_period_segment_totals .TEVENT_InOut_only splitTable 0 3600 false).totalInMinutes +
        (_compute_period_segment_totals .TEVENT_InOut_only splitTable 3600 6000 false).totalInMinutes := by
  have h1 : (_compute_period_segment_totals .TEVENT_InOut_only splitTable 0 6000
      false).totalInMinutes = 70 := by
    simp [_compute_period_segment_totals, _fetch_events_for_card, _fetch_last_event_before,
      splitTable, sortByTime, insertByTime, walkFold, walkStep, _event_state,
      _accumulate_segment_minutes, accumChunks, nextMidnight, addDayMinutes,
      mkPeriodTotals, totalIn, zeroPeriodTotals]
  have h2 : (_compute_period_segment_totals .TEVENT_InOut_only splitTable 0 3600
      false).totalInMinutes = 0 := rfl
  have h3 : (_compute_period_segment_totals .TEVENT_InOut_only splitTable 3600 6000
      false).totalInMinutes = 20 := by
    simp [_compute_period_segment_totals, _fetch_events_for_card, _fetch_last_event_before,
      splitTable, sortByTime, insertByTime, walkFold, walkStep, _event_state,
      _accumulate_segment_minutes, accumChunks, nextMidnight, addDayMinutes,
      mkPeriodTotals, totalIn, zeroPeriodTotals]
  rw [h1, h2, h3]
  omega

/-- C3 (amended): the day-splitting accumulation of one fixed closed segment
is additive across date splits: for every contiguous partition of the
window whose interior cut points are midnights, the per-day IN and OUT
minutes (and their totals) attributed over the whole window equal the sums
attributed over the partition's sub-windows computed independently.  The
whole-period computation `_compute_period_segment_totals` is not additive
(see the counterexample). -/
theorem c3_accumulate_date_split_additive
    (state segment_start segment_end window_start window_end : Nat) (cuts : List Nat)
    (hchain : List.Pairwise (fun a b => a ≤ b) (window_start :: cuts ++ [window_end]))
    (hmid : ∀ c ∈ cuts, c % 86400 = 0) :
    (∀ d : Nat, getIn (_accumulate_segment_minutes [] state segment_start segment_end
        window_start window_end) d =
      ((segWindows window_start cuts window_end).map (fun p =>
        getIn (_accumulate_segment_minutes [] state segment_start segment_end p.1 p.2) d)).sum) ∧
    (∀ d : Nat, getOut (_accumulate_segment_minutes [] state segment_start segment_end
        window_start window_end) d =
      ((segWindows window_start cuts window_end).map (fun p =>
        getOut (_accumulate_segment_minutes [] state segment_start segment_end p.1 p.2) d)).sum) ∧
    (totalIn (_accumulate_segment_minutes [] state segment_start segment_end
        window_start window_end) =
      ((segWindows window_start cuts window_end).map (fun p =>
        totalIn (_accumulate_segment_minutes [] state segment_start segment_end p.1 p.2))).sum) ∧
    (totalOut (_accumulate_segment_minutes [] state segment_start segment_end
        window_start window_end) =
      ((segWindows window_start cuts window_end).map (fun p =>
        totalOut (_accumulate_segment_minutes [] state segment_start segment_end p.1 p.2))).sum) := by
  refine ⟨?_, ?_, ?_, ?_⟩
  · intro d
    exact accumulate_measure_parts (fun dt => getIn dt d)
      (fun day s m => if s = 1 ∧ day = d then m else 0) rfl
      (fun dt day s m => getIn_addDayMinutes dt day s m d)
      state segment_start segment_end cuts window_start window_end hchain hmid
  · intro d
    exact accumulate_measure_parts (fun dt => getOut dt d)
      (fun day s m => if s = 0 ∧ day = d then m else 0) rfl
      (fun dt day s m => getOut_addDayMinutes dt day s m d)
      state segment_start segment_end cuts window_start window_end hchain hmid
  · exact accumulate_measure_parts totalIn
      (fun day s m => if s = 1 then m else 0) rfl
      (fun dt day s m => totalIn_addDayMinutes dt day s m)
      state segment_start segment_end cuts window_start window_end hchain hmid
  · exact accumulate_measure_parts totalOut
      (fun day s m => if s = 0 then m else 0) rfl
      (fun dt day s m => totalOut_addDayMinutes dt day s m)
      state segment_start segment_end cuts window_start window_end hchain hmid

/-- C3 witness: splitting the window `[0, 172800)` at the midnight 86400 for
the segment `[600, 4800)` in IN state. -/
theorem c3_accumulate_date_split_additive_witness :
    totalIn (_accumulate_segment_minutes [] 1 600 4800 0 172800) =
      ((segWindows 0 [86400] 172800).map (fun p =>
        totalIn (_accumulate_segment_minutes [] 1 600 4800 p.1 p.2))).sum :=
  (c3_accumulate_date_split_additive 1 600 4800 0 172800 [86400]
    (by decide) (by decide)).2.2.1
